import Mathlib

/-!
Shallow embedding of the ogl-typescript example scripts:
`src/examples/point-lighting/index.ts` and the three unnamed samples
(`src/unnamed/part_000` indexed-vs-non-indexed, `src/unnamed/part_001`
sort-transparency, `src/unnamed/part_002` instancing).

Numbers are modelled as exact rationals.  Each sample's per-frame callback
is a function from the prior state and the callback timestamp to the next
state together with a list of emitted effects (animation-frame requests and
render requests), in the order the source emits them.
-/

namespace OglSpec

/-- An observable effect emitted by a frame callback or an event handler:
a `requestAnimationFrame` registration, or a `renderer.render` request for
the sample's (sole) scene/camera pair. -/
inductive Effect
  | raf
  | render
  deriving DecidableEq

/-- Whether an effect is a render request. -/
def Effect.isRender : Effect → Bool
  | .render => true
  | .raf => false

/-- Whether an effect is a `requestAnimationFrame` registration. -/
def Effect.isRaf : Effect → Bool
  | .render => false
  | .raf => true

/-- Number of render requests in an effect list. -/
def countRender (es : List Effect) : Nat := es.countP Effect.isRender

/-- Number of `requestAnimationFrame` registrations in an effect list. -/
def countRaf (es : List Effect) : Nat := es.countP Effect.isRaf

/-- Run a step function over a list of callback timestamps, keeping only the
final state. -/
def runState {σ : Type} (step : σ → ℚ → σ × List Effect) (s : σ) : List ℚ → σ
  | [] => s
  | t :: ts => runState step (step s t).1 ts

/-- Total number of render requests emitted over a list of callback
timestamps. -/
def totalRenders {σ : Type} (step : σ → ℚ → σ × List Effect) (s : σ) : List ℚ → Nat
  | [] => 0
  | t :: ts => countRender (step s t).2 + totalRenders step (step s t).1 ts

/-- Number of pending frame callbacks after running the given timestamps,
starting from `p` pending registrations: each invocation consumes one
pending registration and adds the `requestAnimationFrame` calls it makes. -/
def pendingAfter {σ : Type} (step : σ → ℚ → σ × List Effect) (s : σ) (p : Nat) :
    List ℚ → Nat
  | [] => p
  | t :: ts => pendingAfter step (step s t).1 (p - 1 + countRaf (step s t).2) ts

/-- A 3-component vector with `x`, `y`, `z` fields, as used for positions,
rotations and the light position. -/
structure Vec3 where
  x : ℚ
  y : ℚ
  z : ℚ
  deriving DecidableEq

/-- Modelled from the spec: the drawing surface; `width`/`height` are the
drawing-buffer dimensions in device pixels (`gl.canvas.width`,
`gl.canvas.height`). -/
structure Canvas where
  width : ℚ
  height : ℚ
  deriving DecidableEq

/-- Modelled from the spec: `construct-renderer(options) → drawing context`.
The renderer owns the canvas and a device-pixel ratio `dpr`
(`new Renderer()` leaves it 1, `new Renderer({dpr: 2})` sets 2). -/
structure RendererState where
  dpr : ℚ
  canvas : Canvas
  deriving DecidableEq

/-- Modelled from the spec: `renderer.setSize(width, height)` resizes the
drawing buffer to the requested size scaled by the device-pixel ratio. -/
def setSize (r : RendererState) (w h : ℚ) : RendererState :=
  { r with canvas := { width := w * r.dpr, height := h * r.dpr } }

/-- Modelled from the spec: camera handle with mutable position/rotation and
a `perspective({aspect})` method; its projection state is the pair
(`fov`, `aspect`). -/
structure CameraState where
  fov : ℚ
  aspect : ℚ
  position : Vec3
  rotation : Vec3
  deriving DecidableEq

/-- Modelled from the spec: `camera.perspective({aspect})` recomputes the
projection from the given aspect value. -/
def perspective (c : CameraState) (aspect : ℚ) : CameraState :=
  { c with aspect := aspect }

/-- The `resize` handler shared verbatim by all four samples
(`src/examples/point-lighting/index.ts` lines 108–113,
`src/unnamed/part_000` lines 39–42, `part_001` lines 56–59,
`part_002` lines 67–70): `renderer.setSize(window.innerWidth,
window.innerHeight)` followed by `camera.perspective({aspect:
gl.canvas.width / gl.canvas.height})`.  It is a total function: no error
condition is raised. -/
def resize (r : RendererState) (c : CameraState) (w h : ℚ) :
    RendererState × CameraState :=
  let r2 := setSize r w h
  (r2, perspective c (r2.canvas.width / r2.canvas.height))

/-- A texture handle (`new Texture(gl)`); `image` is `none` until a load
handler assigns it, then `some` of the loaded image id. -/
structure TexState where
  image : Option Nat
  deriving DecidableEq

end OglSpec

namespace OglSpec.PL

/-- Modelled from the spec: the data of `new Sphere(gl, {widthSegments: 64})`
is built once by the external library from its constructor arguments and
never rebuilt; it is represented by those arguments. -/
structure SphereGeom where
  widthSegments : Nat
  deriving DecidableEq

/-- Orbit-control handle: `new Orbit(camera, {target: new Vec3(0, 0, 0)})`.
The internal input state the library accumulates is opaque to the sample;
only the target set at construction appears in the source. -/
structure OrbitState where
  target : Vec3
  deriving DecidableEq

/-- State of the point-lighting sample
(`src/examples/point-lighting/index.ts`): renderer, camera, orbit controls,
the sphere mesh's transform, the program's uniform values and the three
texture handles. -/
structure State where
  renderer : RendererState
  camera : CameraState
  orbit : OrbitState
  geometry : SphereGeom
  meshRotation : Vec3
  meshPosition : Vec3
  u_dt : ℚ
  u_shininess : ℚ
  u_lightWorldPosition : Vec3
  colMap : TexState
  specMap : TexState
  cloudMap : TexState
  deriving DecidableEq

/-- The frame callback `update(dt)` (lines 166–175):
`requestAnimationFrame(update); mesh.rotation.y += 0.005;
program.uniforms.u_dt.value = -dt * 0.00002; controls.update();
renderer.render({scene, camera})`.  `controls.update()` is library code
(out of scope per the spec); it is passed in as an arbitrary pure
transition `orbitStep` on the orbit/camera pair. -/
def update (orbitStep : OrbitState → CameraState → OrbitState × CameraState)
    (s : State) (dt : ℚ) : State × List Effect :=
  let oc := orbitStep s.orbit s.camera
  ({ s with
      meshRotation := { s.meshRotation with y := s.meshRotation.y + 0.005 }
      u_dt := -dt * 0.00002
      orbit := oc.1
      camera := oc.2 },
   [Effect.raf, Effect.render])

/-- The color-map image load event (lines 124–127): the source registers
only `img.onload = () => (colMap.image = img)` and no `onerror` handler, so
a failed load runs no sample code: the `false` branch leaves the state
unchanged and emits nothing. -/
def colMapLoadEvent (success : Bool) (img : Nat) (s : State) : State × List Effect :=
  if success then ({ s with colMap := { image := some img } }, []) else (s, [])

/-- The specular-map image load event (lines 129–133), same shape as the
color map: `onload` only, no `onerror`. -/
def specMapLoadEvent (success : Bool) (img : Nat) (s : State) : State × List Effect :=
  if success then ({ s with specMap := { image := some img } }, []) else (s, [])

/-- The cloud-map image load event (lines 135–139), same shape as the
color map: `onload` only, no `onerror`. -/
def cloudMapLoadEvent (success : Bool) (img : Nat) (s : State) : State × List Effect :=
  if success then ({ s with cloudMap := { image := some img } }, []) else (s, [])

/-- The mousemove handler (lines 156–163): sets the light-position uniform
from the event coordinates and the window size. -/
def mousemove (ex ey innerW innerH : ℚ) (s : State) : State × List Effect :=
  ({ s with u_lightWorldPosition := ⟨ex - innerW / 2, -(ey - innerH / 2), 40⟩ }, [])

/-- One-time setup of the point-lighting sample: camera at (0, 0, 2), light
uniform (20, 30, 60), `u_shininess` 1.5, `u_dt` 0, all texture images not
yet loaded, followed by the startup `resize()` call with the window size.
`new Renderer()` leaves `dpr` 1; the pre-resize canvas size and the
camera's default `fov`/`aspect` are library defaults immediately
overwritten or irrelevant here. -/
def setup (w h : ℚ) : State :=
  let rc := resize ⟨1, ⟨0, 0⟩⟩
    { fov := 45, aspect := 1, position := ⟨0, 0, 2⟩, rotation := ⟨0, 0, 0⟩ } w h
  { renderer := rc.1
    camera := rc.2
    orbit := ⟨⟨0, 0, 0⟩⟩
    geometry := ⟨64⟩
    meshRotation := ⟨0, 0, 0⟩
    meshPosition := ⟨0, 0, 0⟩
    u_dt := 0
    u_shininess := 1.5
    u_lightWorldPosition := ⟨20, 30, 60⟩
    colMap := ⟨none⟩
    specMap := ⟨none⟩
    cloudMap := ⟨none⟩ }

end OglSpec.PL

namespace OglSpec.IVNI

/-- A geometry handle built by `new Geometry(gl, attributeMap)`: flat
attribute data lists with their per-vertex sizes, plus an optional index
list. -/
structure GeomData where
  positions : List ℚ
  posSize : Nat
  uvs : List ℚ
  uvSize : Nat
  index : Option (List Nat)
  deriving DecidableEq

/-- The i-th vertex's position triple of a geometry (components
`3*i`, `3*i+1`, `3*i+2` of the flat position list). -/
def posTriple (g : GeomData) (i : Nat) : Option ℚ × Option ℚ × Option ℚ :=
  (g.positions.get? (3 * i), g.positions.get? (3 * i + 1), g.positions.get? (3 * i + 2))

/-- The i-th vertex's uv pair of a geometry (components `2*i`, `2*i+1` of
the flat uv list). -/
def uvPair (g : GeomData) (i : Nat) : Option ℚ × Option ℚ :=
  (g.uvs.get? (2 * i), g.uvs.get? (2 * i + 1))

/-- The indexed geometry of `src/unnamed/part_000` (lines 46–78): four
vertices and the index list `[0, 1, 2, 1, 3, 2]`. -/
def indexedGeometry : GeomData :=
  { positions := [-0.5, 0.5, 0, -0.5, -0.5, 0, 0.5, 0.5, 0, 0.5, -0.5, 0]
    posSize := 3
    uvs := [0, 1, 1, 1, 0, 0, 1, 0]
    uvSize := 2
    index := some [0, 1, 2, 1, 3, 2] }

/-- The non-indexed geometry of `src/unnamed/part_000` (lines 79–120): six
vertices, no index list. -/
def nonIndexedGeometry : GeomData :=
  { positions := [-0.5, 0.5, 0, -0.5, -0.5, 0, 0.5, 0.5, 0,
                  -0.5, -0.5, 0, 0.5, -0.5, 0, 0.5, 0.5, 0]
    posSize := 3
    uvs := [0, 1, 1, 1, 0, 0, 1, 1, 1, 0, 0, 0]
    uvSize := 2
    index := none }

/-- State of the indexed-vs-non-indexed sample (`src/unnamed/part_000`):
renderer, camera, the two geometries, the two mesh positions and the
`uTime` uniform. -/
structure State where
  renderer : RendererState
  camera : CameraState
  indexedGeometry : GeomData
  nonIndexedGeometry : GeomData
  indexedMeshPos : Vec3
  nonIndexedMeshPos : Vec3
  uTime : ℚ
  deriving DecidableEq

/-- The frame callback `update(t)` (lines 135–139):
`requestAnimationFrame(update); program.uniforms.uTime.value = t * 1e-3;
renderer.render({scene, camera})`. -/
def update (s : State) (t : ℚ) : State × List Effect :=
  ({ s with uTime := t * (1 / 1000) }, [Effect.raf, Effect.render])

/-- One-time setup of the indexed-vs-non-indexed sample: camera with
`fov` 15 at `z` 15, the two geometries, meshes at `y` 0.9 and −0.9,
`uTime` 0, after the startup `resize()` call.  `new Renderer()` leaves
`dpr` 1; the pre-resize canvas size and the camera's default aspect are
overwritten by `resize`. -/
def setup (w h : ℚ) : State :=
  let rc := resize ⟨1, ⟨0, 0⟩⟩
    { fov := 15, aspect := 1, position := ⟨0, 0, 15⟩, rotation := ⟨0, 0, 0⟩ } w h
  { renderer := rc.1
    camera := rc.2
    indexedGeometry := indexedGeometry
    nonIndexedGeometry := nonIndexedGeometry
    indexedMeshPos := ⟨0, 0.9, 0⟩
    nonIndexedMeshPos := ⟨0, -0.9, 0⟩
    uTime := 0 }

end OglSpec.IVNI

namespace OglSpec.ST

/-- Modelled from the spec: the data of `new Plane(gl, {widthSegments: 10,
heightSegments: 10})` is built once by the external library from its
constructor arguments; it is represented by those arguments. -/
structure PlaneGeom where
  widthSegments : Nat
  heightSegments : Nat
  deriving DecidableEq

/-- One mesh of the sort-transparency sample: transform fields plus the ad
hoc `speed` field the source attaches (`mesh.speed = ...`).  The source
sets a uniform scale (`mesh.scale.set(k)`), kept as one rational. -/
structure STMesh where
  position : Vec3
  rotation : Vec3
  scale : ℚ
  speed : ℚ
  deriving DecidableEq

/-- The seven `Math.random()` draws consumed for one mesh of the
sort-transparency setup loop, in source order: three for `position.set`,
two for `rotation.set`, one for `scale.set`, one for `speed`. -/
structure Rand where
  px : ℚ
  py : ℚ
  pz : ℚ
  ry : ℚ
  rz : ℚ
  sc : ℚ
  sp : ℚ
  deriving DecidableEq

/-- One iteration of the setup loop (`src/unnamed/part_001` lines 81–90):
`mesh.position.set((r-0.5)*3, (r-0.5)*6, (r-0.5)*3);
mesh.rotation.set(0, (r-0.5)*6.28, (r-0.5)*6.28);
mesh.scale.set(r*0.5+0.2); mesh.speed = r*1.5+0.2` with fresh draws `r`. -/
def mkMesh (r : Rand) : STMesh :=
  { position := ⟨(r.px - 0.5) * 3, (r.py - 0.5) * 6, (r.pz - 0.5) * 3⟩
    rotation := ⟨0, (r.ry - 0.5) * 6.28, (r.rz - 0.5) * 6.28⟩
    scale := r.sc * 0.5 + 0.2
    speed := r.sp * 1.5 + 0.2 }

/-- State of the sort-transparency sample (`src/unnamed/part_001`):
renderer (constructed with `dpr` 2), camera, the shared plane geometry and
leaf texture, the 50 meshes and the scene root's rotation. -/
structure State where
  renderer : RendererState
  camera : CameraState
  geometry : PlaneGeom
  texture : TexState
  meshes : List STMesh
  sceneRotY : ℚ
  deriving DecidableEq

/-- The per-mesh body of the frame callback (lines 94–99):
`mesh.rotation.y += 0.05; mesh.rotation.z += 0.05;
if (mesh.position.y < -3) mesh.position.y += 6`. -/
def updateMesh (m : STMesh) : STMesh :=
  let m1 := { m with rotation :=
    { m.rotation with y := m.rotation.y + 0.05, z := m.rotation.z + 0.05 } }
  if m1.position.y < -3 then
    { m1 with position := { m1.position with y := m1.position.y + 6 } }
  else m1

/-- The frame callback `update(t)` (lines 92–102):
`requestAnimationFrame(update); meshes.forEach(...); scene.rotation.y +=
0.015; renderer.render({scene, camera})`.  The timestamp is ignored by the
body, matching the source. -/
def update (s : State) (t : ℚ) : State × List Effect :=
  ({ s with meshes := s.meshes.map updateMesh, sceneRotY := s.sceneRotY + 0.015 },
   [Effect.raf, Effect.render])

/-- The leaf-texture image load event (lines 72–74): `img.onload = () =>
texture.image = img`, no `onerror` handler, so a failed load runs no
sample code. -/
def imgLoadEvent (success : Bool) (img : Nat) (s : State) : State × List Effect :=
  if success then ({ s with texture := { image := some img } }, []) else (s, [])

/-- One-time setup of the sort-transparency sample: `dpr` 2 renderer,
camera with `fov` 35 at (0, 0, 7) and `rotation.z` −0.3, startup
`resize()`, texture not yet loaded, and one mesh per element of the list
of random draws (the source draws 50 times). -/
def setup (w h : ℚ) (rs : List Rand) : State :=
  let rc := resize ⟨2, ⟨0, 0⟩⟩
    { fov := 35, aspect := 1, position := ⟨0, 0, 7⟩, rotation := ⟨0, 0, -0.3⟩ } w h
  { renderer := rc.1
    camera := rc.2
    geometry := ⟨10, 10⟩
    texture := ⟨none⟩
    meshes := rs.map mkMesh
    sceneRotY := 0 }

end OglSpec.ST

namespace OglSpec.Inst

/-- The parsed model JSON fetched by `loadModel` (`data.position`,
`data.uv`, `data.normal`). -/
structure ModelData where
  position : List ℚ
  uv : List ℚ
  normal : List ℚ
  deriving DecidableEq

/-- The instanced geometry built in `loadModel` (lines 97–103): the model's
position/uv/normal attributes plus the per-instance `offset` and `random`
attributes filled from the random draws. -/
structure InstGeom where
  position : List ℚ
  uv : List ℚ
  normal : List ℚ
  offset : List ℚ
  random : List ℚ
  deriving DecidableEq

/-- `new Geometry(gl, {position, uv, normal, offset, random})` as called in
`loadModel`. -/
def mkGeometry (d : ModelData) (offset random : List ℚ) : InstGeom :=
  { position := d.position
    uv := d.uv
    normal := d.normal
    offset := offset
    random := random }

/-- The mesh `loadModel` creates: its geometry, its rotation's `y`
component (the only transform field the sample touches; the library's
`Transform` starts it at 0), and whether `mesh.setParent(scene)` has
attached it to the scene. -/
structure InstMesh where
  geometry : InstGeom
  rotY : ℚ
  parentIsScene : Bool
  deriving DecidableEq

/-- State of the instancing sample (`src/unnamed/part_002`): renderer
(constructed with `dpr` 2), camera, the acorn texture, the `uTime` uniform
and the closure variable `let mesh`, `none` until `loadModel` completes. -/
structure State where
  renderer : RendererState
  camera : CameraState
  texture : TexState
  uTime : ℚ
  mesh : Option InstMesh
  deriving DecidableEq

/-- Completion of `loadModel` (lines 86–106): builds the instanced
geometry from the fetched model data and the random draws, creates the
mesh, attaches it to the scene (`mesh.setParent(scene)`), and assigns the
closure variable.  It registers no animation frame and issues no render:
the effect list is empty. -/
def loadComplete (d : ModelData) (offset random : List ℚ) (s : State) :
    State × List Effect :=
  ({ s with mesh := some { geometry := mkGeometry d offset random,
                           rotY := 0, parentIsScene := true } }, [])

/-- Outcome of the model fetch in `loadModel`: the parsed JSON, or a
failure (network error / rejected promise). -/
inductive FetchOutcome
  | ok (d : ModelData)
  | failed
  deriving DecidableEq

/-- Settling of the `loadModel` fetch: the source awaits the fetch with no
`catch` and no `try`, so on a rejected promise no sample code runs — the
failure branch leaves the state unchanged and emits no effect (no
diagnostic). -/
def fetchEvent (o : FetchOutcome) (offset random : List ℚ) (s : State) :
    State × List Effect :=
  match o with
  | .ok d => loadComplete d offset random s
  | .failed => (s, [])

/-- The acorn-texture image load event (lines 73–75): `img.onload = () =>
texture.image = img`, no `onerror` handler. -/
def imgLoadEvent (success : Bool) (img : Nat) (s : State) : State × List Effect :=
  if success then ({ s with texture := { image := some img } }, []) else (s, [])

/-- The frame callback `update(t)` (lines 108–114):
`requestAnimationFrame(update); if (mesh) mesh.rotation.y -= 5e-3;
program.uniforms.uTime.value = t * 1e-3; renderer.render({scene,
camera})`.  The null guard on the closure variable is the `Option.map`:
while `mesh` is `none` the rotation update is skipped. -/
def update (s : State) (t : ℚ) : State × List Effect :=
  ({ s with
      mesh := s.mesh.map (fun m => { m with rotY := m.rotY - 0.005 })
      uTime := t * (1 / 1000) },
   [Effect.raf, Effect.render])

/-- One-time setup of the instancing sample: `dpr` 2 renderer, camera with
`fov` 15 at `z` 15, startup `resize()`, texture not yet loaded, `uTime` 0,
and the closure variable `mesh` still unset (`none`): `loadModel()` has
been started but not completed. -/
def setup (w h : ℚ) : State :=
  let rc := resize ⟨2, ⟨0, 0⟩⟩
    { fov := 15, aspect := 1, position := ⟨0, 0, 15⟩, rotation := ⟨0, 0, 0⟩ } w h
  { renderer := rc.1
    camera := rc.2
    texture := ⟨none⟩
    uTime := 0
    mesh := none }

end OglSpec.Inst

namespace OglSpec

/-- The animation state of the point-lighting sample: the mesh transform
and the uniform values (`u_dt`, `u_shininess`, `u_lightWorldPosition` and
the three texture uniforms), as opposed to the renderer, camera,
orbit-control and geometry state. -/
def PL.animState (s : PL.State) :
    Vec3 × Vec3 × ℚ × ℚ × Vec3 × TexState × TexState × TexState :=
  (s.meshRotation, s.meshPosition, s.u_dt, s.u_shininess,
   s.u_lightWorldPosition, s.colMap, s.specMap, s.cloudMap)

/-- The animation state of the sort-transparency sample: the mesh
transforms (with their ad hoc `speed` fields), the scene root's rotation
and the `tMap` uniform's texture, as opposed to the renderer, camera and
geometry state. -/
def ST.animState (s : ST.State) : List ST.STMesh × ℚ × TexState :=
  (s.meshes, s.sceneRotY, s.texture)

/-- The animation state of the indexed-vs-non-indexed sample: the `uTime`
uniform and the two mesh positions, as opposed to the renderer, camera and
geometry state. -/
def IVNI.animState (s : IVNI.State) : ℚ × Vec3 × Vec3 :=
  (s.uTime, s.indexedMeshPos, s.nonIndexedMeshPos)

/-- The animation state of the instancing sample: the `uTime` uniform and
the mesh rotation (absent while the model has not loaded), as opposed to
the renderer, camera, texture and geometry state. -/
def Inst.animState (s : Inst.State) : ℚ × Option ℚ :=
  (s.uTime, s.mesh.map Inst.InstMesh.rotY)

/-- If a step function emits exactly one render request per invocation, the
total number of render requests over a run equals the number of
invocations. -/
theorem totalRenders_eq_length {σ : Type} (step : σ → ℚ → σ × List Effect)
    (h : ∀ s t, countRender (step s t).2 = 1) :
    ∀ (ts : List ℚ) (s : σ), totalRenders step s ts = ts.length := by
  intro ts
  induction ts with
  | nil => intro s; rfl
  | cons t ts ih =>
      intro s
      simp [totalRenders, h, ih, Nat.add_comm]

/-- If a step function registers exactly one animation frame per
invocation, then starting from one pending registration there is always
exactly one pending registration. -/
theorem pendingAfter_eq_one {σ : Type} (step : σ → ℚ → σ × List Effect)
    (h : ∀ s t, countRaf (step s t).2 = 1) :
    ∀ (ts : List ℚ) (s : σ), pendingAfter step s 1 ts = 1 := by
  intro ts
  induction ts with
  | nil => intro s; rfl
  | cons t ts ih =>
      intro s
      simp only [pendingAfter, h]
      exact ih _

/-- A property preserved by every step holds after any run. -/
theorem runState_preserve {σ : Type} (step : σ → ℚ → σ × List Effect)
    (P : σ → Prop) (h : ∀ s t, P s → P (step s t).1) :
    ∀ (ts : List ℚ) (s : σ), P s → P (runState step s ts) := by
  intro ts
  induction ts with
  | nil => intro s hs; exact hs
  | cons t ts ih =>
      intro s hs
      simp only [runState]
      exact ih _ (h s t hs)

/-- C1: For every viewport size change, after the resize handler completes,
the camera's aspect value passed to `perspective` equals the drawing-buffer
width divided by the drawing-buffer height exactly — for every renderer
(every device-pixel ratio, including 2), camera and viewport size. -/
theorem resize_sets_aspect_to_buffer_quotient
    (r : RendererState) (c : CameraState) (w h : ℚ) :
    ((resize r c w h).2).aspect =
      (resize r c w h).1.canvas.width / (resize r c w h).1.canvas.height := rfl

/-- C4: The resize handler is idempotent in effect: calling `resize` a
second time with the same viewport size leaves the renderer's
drawing-buffer size and the camera's projection state (the whole
renderer/camera pair) identical to calling it once; `resize` is a total
function, raising no error condition. -/
theorem resize_idempotent (r : RendererState) (c : CameraState) (w h : ℚ) :
    resize (resize r c w h).1 (resize r c w h).2 w h = resize r c w h := rfl

/-- C2: In every sample, each invocation of the frame callback issues
exactly one render request for its scene/camera pair, and hence over any
N ≥ 0 invocations exactly N render requests have been issued. -/
theorem frame_callback_renders_exactly_once :
    (∀ (f : PL.OrbitState → CameraState → PL.OrbitState × CameraState)
        (s : PL.State) (t : ℚ), countRender (PL.update f s t).2 = 1)
    ∧ (∀ (f : PL.OrbitState → CameraState → PL.OrbitState × CameraState)
        (s : PL.State) (ts : List ℚ), totalRenders (PL.update f) s ts = ts.length)
    ∧ (∀ (s : IVNI.State) (t : ℚ), countRender (IVNI.update s t).2 = 1)
    ∧ (∀ (s : IVNI.State) (ts : List ℚ), totalRenders IVNI.update s ts = ts.length)
    ∧ (∀ (s : ST.State) (t : ℚ), countRender (ST.update s t).2 = 1)
    ∧ (∀ (s : ST.State) (ts : List ℚ), totalRenders ST.update s ts = ts.length)
    ∧ (∀ (s : Inst.State) (t : ℚ), countRender (Inst.update s t).2 = 1)
    ∧ (∀ (s : Inst.State) (ts : List ℚ), totalRenders Inst.update s ts = ts.length) :=
  ⟨fun _ _ _ => rfl,
   fun f s ts => totalRenders_eq_length (PL.update f) (fun _ _ => rfl) ts s,
   fun _ _ => rfl,
   fun s ts => totalRenders_eq_length IVNI.update (fun _ _ => rfl) ts s,
   fun _ _ => rfl,
   fun s ts => totalRenders_eq_length ST.update (fun _ _ => rfl) ts s,
   fun _ _ => rfl,
   fun s ts => totalRenders_eq_length Inst.update (fun _ _ => rfl) ts s⟩

/-- C8: In every sample, each invocation of the frame callback re-registers
`requestAnimationFrame` exactly once, so from the initial registration
(one pending callback) onward there is always exactly one pending frame
callback after any number of invocations: the loop is self-perpetuating
and never terminates on its own. -/
theorem frame_loop_self_perpetuating :
    (∀ (f : PL.OrbitState → CameraState → PL.OrbitState × CameraState)
        (s : PL.State) (t : ℚ), countRaf (PL.update f s t).2 = 1)
    ∧ (∀ (f : PL.OrbitState → CameraState → PL.OrbitState × CameraState)
        (s : PL.State) (ts : List ℚ), pendingAfter (PL.update f) s 1 ts = 1)
    ∧ (∀ (s : IVNI.State) (t : ℚ), countRaf (IVNI.update s t).2 = 1)
    ∧ (∀ (s : IVNI.State) (ts : List ℚ), pendingAfter IVNI.update s 1 ts = 1)
    ∧ (∀ (s : ST.State) (t : ℚ), countRaf (ST.update s t).2 = 1)
    ∧ (∀ (s : ST.State) (ts : List ℚ), pendingAfter ST.update s 1 ts = 1)
    ∧ (∀ (s : Inst.State) (t : ℚ), countRaf (Inst.update s t).2 = 1)
    ∧ (∀ (s : Inst.State) (ts : List ℚ), pendingAfter Inst.update s 1 ts = 1) :=
  ⟨fun _ _ _ => rfl,
   fun f s ts => pendingAfter_eq_one (PL.update f) (fun _ _ => rfl) ts s,
   fun _ _ => rfl,
   fun s ts => pendingAfter_eq_one IVNI.update (fun _ _ => rfl) ts s,
   fun _ _ => rfl,
   fun s ts => pendingAfter_eq_one ST.update (fun _ _ => rfl) ts s,
   fun _ _ => rfl,
   fun s ts => pendingAfter_eq_one Inst.update (fun _ _ => rfl) ts s⟩

/-- C5: In every sample, the frame callback's animation-state update is a
pure function of the callback timestamp and the prior animation state
alone: two runs of one frame callback started from equal animation states
(mesh rotations/positions, uniform values) with equal timestamps yield
equal resulting animation states, even when the two runs differ in every
non-animation component (renderer, camera, orbit-control input state,
texture-load state and, for the point-lighting sample, even the
orbit-control transition function itself). -/
theorem update_pure_function_of_state_and_time
    (f g : PL.OrbitState → CameraState → PL.OrbitState × CameraState)
    (s1 s2 : PL.State) (t1 t2 : ℚ)
    (hsP : PL.animState s1 = PL.animState s2) (htP : t1 = t2)
    (u1 u2 : ST.State) (r1 r2 : ℚ)
    (hsS : ST.animState u1 = ST.animState u2) (htS : r1 = r2)
    (v1 v2 : IVNI.State) (w1 w2 : ℚ)
    (hsI : IVNI.animState v1 = IVNI.animState v2) (htI : w1 = w2)
    (x1 x2 : Inst.State) (y1 y2 : ℚ)
    (hsN : Inst.animState x1 = Inst.animState x2) (htN : y1 = y2) :
    PL.animState (PL.update f s1 t1).1 = PL.animState (PL.update g s2 t2).1
    ∧ ST.animState (ST.update u1 r1).1 = ST.animState (ST.update u2 r2).1
    ∧ IVNI.animState (IVNI.update v1 w1).1 = IVNI.animState (IVNI.update v2 w2).1
    ∧ Inst.animState (Inst.update x1 y1).1 = Inst.animState (Inst.update x2 y2).1 := by
  subst htP htS htI htN
  refine ⟨?_, ?_, ?_, ?_⟩
  · rcases s1 with ⟨ren1, cam1, orb1, geo1, mr1, mp1, dt1, sh1, lw1, cm1, sm1, clm1⟩
    rcases s2 with ⟨ren2, cam2, orb2, geo2, mr2, mp2, dt2, sh2, lw2, cm2, sm2, clm2⟩
    simp only [PL.animState, Prod.mk.injEq] at hsP
    obtain ⟨e1, e2, e3, e4, e5, e6, e7, e8⟩ := hsP
    subst e1 e2 e3 e4 e5 e6 e7 e8
    rfl
  · rcases u1 with ⟨renu, camu, geou, texu, msu, scu⟩
    rcases u2 with ⟨renv, camv, geov, texv, msv, scv⟩
    simp only [ST.animState, Prod.mk.injEq] at hsS
    obtain ⟨e1, e2, e3⟩ := hsS
    subst e1 e2 e3
    rfl
  · rcases v1 with ⟨renv1, camv1, ig1, ng1, ip1, np1, ut1⟩
    rcases v2 with ⟨renv2, camv2, ig2, ng2, ip2, np2, ut2⟩
    simp only [IVNI.animState, Prod.mk.injEq] at hsI
    obtain ⟨e1, e2, e3⟩ := hsI
    subst e1 e2 e3
    rfl
  · rcases x1 with ⟨renx, camx, texx, utx, mx⟩
    rcases x2 with ⟨reny, camy, texy, uty, my⟩
    simp only [Inst.animState, Prod.mk.injEq] at hsN
    obtain ⟨e1, e2⟩ := hsN
    subst e1
    simp only [Inst.update, Inst.animState, Prod.mk.injEq]
    refine ⟨trivial, ?_⟩
    cases mx <;> cases my <;> simp_all

/-- Witness for C5: each sample at its setup state, the two point-lighting
runs using two different orbit transitions, and the second point-lighting
and sort-transparency runs starting from states whose camera was changed —
the animation states still agree. -/
theorem update_pure_function_of_state_and_time_witness :
    PL.animState (PL.update (fun o c => (o, c)) (PL.setup 800 600) 16).1
      = PL.animState (PL.update (fun o c => (o, perspective c 0))
          { PL.setup 800 600 with camera := perspective (PL.setup 800 600).camera 2 } 16).1
    ∧ ST.animState (ST.update (ST.setup 800 600 []) 16).1
      = ST.animState (ST.update
          { ST.setup 800 600 [] with camera := perspective (ST.setup 800 600 []).camera 2 } 16).1
    ∧ IVNI.animState (IVNI.update (IVNI.setup 800 600) 16).1
      = IVNI.animState (IVNI.update (IVNI.setup 800 600) 16).1
    ∧ Inst.animState (Inst.update (Inst.setup 800 600) 16).1
      = Inst.animState (Inst.update (Inst.setup 800 600) 16).1 :=
  update_pure_function_of_state_and_time
    (fun o c => (o, c)) (fun o c => (o, perspective c 0))
    (PL.setup 800 600)
    { PL.setup 800 600 with camera := perspective (PL.setup 800 600).camera 2 }
    16 16 rfl rfl
    (ST.setup 800 600 [])
    { ST.setup 800 600 [] with camera := perspective (ST.setup 800 600 []).camera 2 }
    16 16 rfl rfl
    (IVNI.setup 800 600) (IVNI.setup 800 600) 16 16 rfl rfl
    (Inst.setup 800 600) (Inst.setup 800 600) 16 16 rfl rfl

/-- C6: No frame callback, event handler or load handler in any sample
writes to a geometry's vertex-attribute arrays or index list after the
geometry is constructed: every update and handler leaves every geometry
field unchanged, and the instancing load handler only constructs its
geometry (from the fetched data) without touching any other. -/
theorem geometry_never_mutated :
    (∀ (s : IVNI.State) (t : ℚ),
        (IVNI.update s t).1.indexedGeometry = s.indexedGeometry
        ∧ (IVNI.update s t).1.nonIndexedGeometry = s.nonIndexedGeometry)
    ∧ (∀ (s : ST.State) (t : ℚ), (ST.update s t).1.geometry = s.geometry)
    ∧ (∀ (b : Bool) (i : Nat) (s : ST.State),
        (ST.imgLoadEvent b i s).1.geometry = s.geometry)
    ∧ (∀ (s : Inst.State) (t : ℚ),
        (Inst.update s t).1.mesh.map Inst.InstMesh.geometry
          = s.mesh.map Inst.InstMesh.geometry)
    ∧ (∀ (d : Inst.ModelData) (off rnd : List ℚ) (s : Inst.State),
        (Inst.loadComplete d off rnd s).1.mesh
          = some ⟨Inst.mkGeometry d off rnd, 0, true⟩)
    ∧ (∀ (b : Bool) (i : Nat) (s : Inst.State),
        (Inst.imgLoadEvent b i s).1.mesh = s.mesh)
    ∧ (∀ (f : PL.OrbitState → CameraState → PL.OrbitState × CameraState)
        (s : PL.State) (t : ℚ), (PL.update f s t).1.geometry = s.geometry)
    ∧ (∀ (ex ey iw ih : ℚ) (s : PL.State),
        (PL.mousemove ex ey iw ih s).1.geometry = s.geometry)
    ∧ (∀ (b : Bool) (i : Nat) (s : PL.State),
        (PL.colMapLoadEvent b i s).1.geometry = s.geometry
        ∧ (PL.specMapLoadEvent b i s).1.geometry = s.geometry
        ∧ (PL.cloudMapLoadEvent b i s).1.geometry = s.geometry) := by
  refine ⟨fun s t => ⟨rfl, rfl⟩, fun s t => rfl, ?_, ?_, fun d off rnd s => rfl,
    ?_, fun f s t => rfl, fun ex ey iw ih s => rfl, ?_⟩
  · intro b i s; cases b <;> rfl
  · intro s t; cases s with
    | mk r c tex u m => cases m <;> rfl
  · intro b i s; cases b <;> rfl
  · intro b i s; cases b <;> exact ⟨rfl, rfl, rfl⟩

/-- C9: Expanding the indexed geometry of the indexed-vs-non-indexed
sample by its index list `[0, 1, 2, 1, 3, 2]` reproduces the non-indexed
geometry exactly: for each i < 6, the position triple and uv pair at
vertex `index[i]` of the indexed geometry equal the i-th position triple
and uv pair of the non-indexed geometry. -/
theorem indexed_expansion_matches_nonindexed (i : Nat) (h : i < 6) :
    IVNI.posTriple IVNI.indexedGeometry
        ((IVNI.indexedGeometry.index.getD []).getD i 0)
      = IVNI.posTriple IVNI.nonIndexedGeometry i
    ∧ IVNI.uvPair IVNI.indexedGeometry
        ((IVNI.indexedGeometry.index.getD []).getD i 0)
      = IVNI.uvPair IVNI.nonIndexedGeometry i := by
  interval_cases i <;> exact ⟨rfl, rfl⟩

/-- Witness for C9 at i = 0. -/
theorem indexed_expansion_matches_nonindexed_witness :
    IVNI.posTriple IVNI.indexedGeometry
        ((IVNI.indexedGeometry.index.getD []).getD 0 0)
      = IVNI.posTriple IVNI.nonIndexedGeometry 0
    ∧ IVNI.uvPair IVNI.indexedGeometry
        ((IVNI.indexedGeometry.index.getD []).getD 0 0)
      = IVNI.uvPair IVNI.nonIndexedGeometry 0 :=
  indexed_expansion_matches_nonindexed 0 (by decide)

/-- Helper: while a mesh's position satisfies `-3 ≤ position.y`, the
per-mesh frame update of the sort-transparency sample leaves its position
unchanged (the wrap branch requires `position.y < -3`). -/
theorem ST.updateMesh_position_eq (m : ST.STMesh) (h : -3 ≤ m.position.y) :
    (ST.updateMesh m).position = m.position := by
  simp only [ST.updateMesh]
  rw [if_neg (not_lt.mpr h)]

/-- C10: In the sort-transparency sample every mesh position is set once at
setup with `y` in [−3, 3] (given `Math.random()` draws in [0, 1)), and the
frame callback's wrap branch is unreachable from there: after any number of
frames every mesh's position equals its setup position and satisfies
`-3 ≤ position.y`. -/
theorem sort_transparency_positions_invariant
    (w h : ℚ) (rs : List ST.Rand)
    (hr : ∀ r ∈ rs, 0 ≤ r.py ∧ r.py < 1) (ts : List ℚ) :
    (∀ m ∈ (ST.setup w h rs).meshes, -3 ≤ m.position.y ∧ m.position.y ≤ 3)
    ∧ (runState ST.update (ST.setup w h rs) ts).meshes.map ST.STMesh.position
        = (ST.setup w h rs).meshes.map ST.STMesh.position
    ∧ ∀ m ∈ (runState ST.update (ST.setup w h rs) ts).meshes, -3 ≤ m.position.y := by
  have hsetup : ∀ m ∈ (ST.setup w h rs).meshes, -3 ≤ m.position.y ∧ m.position.y ≤ 3 := by
    intro m hm
    rw [show (ST.setup w h rs).meshes = rs.map ST.mkMesh from rfl, List.mem_map] at hm
    obtain ⟨r, hrm, rfl⟩ := hm
    obtain ⟨h0, h1⟩ := hr r hrm
    have hy : (ST.mkMesh r).position.y = (r.py - 0.5) * 6 := rfl
    rw [hy]
    constructor <;> nlinarith
  have hstep : ∀ (s : ST.State) (t : ℚ),
      (s.meshes.map ST.STMesh.position
          = (ST.setup w h rs).meshes.map ST.STMesh.position
        ∧ ∀ m ∈ s.meshes, -3 ≤ m.position.y) →
      ((ST.update s t).1.meshes.map ST.STMesh.position
          = (ST.setup w h rs).meshes.map ST.STMesh.position
        ∧ ∀ m ∈ (ST.update s t).1.meshes, -3 ≤ m.position.y) := by
    intro s t hP
    obtain ⟨hmap, hbound⟩ := hP
    have hmeshes : (ST.update s t).1.meshes = s.meshes.map ST.updateMesh := rfl
    constructor
    · rw [hmeshes, List.map_map]
      refine (List.map_congr_left ?_).trans hmap
      intro m hm
      exact ST.updateMesh_position_eq m (hbound m hm)
    · intro m2 hm2
      rw [hmeshes, List.mem_map] at hm2
      obtain ⟨m, hm, rfl⟩ := hm2
      rw [ST.updateMesh_position_eq m (hbound m hm)]
      exact hbound m hm
  have hrun := runState_preserve ST.update
      (fun s : ST.State =>
        s.meshes.map ST.STMesh.position
            = (ST.setup w h rs).meshes.map ST.STMesh.position
        ∧ ∀ m ∈ s.meshes, -3 ≤ m.position.y)
      hstep ts (ST.setup w h rs) ⟨rfl, fun m hm => (hsetup m hm).1⟩
  exact ⟨hsetup, hrun.1, hrun.2⟩

/-- Witness for C10: one mesh drawn with all `Math.random()` results 0.5,
run for two frames. -/
theorem sort_transparency_positions_invariant_witness :
    (∀ r ∈ [(⟨0.5, 0.5, 0.5, 0.5, 0.5, 0.5, 0.5⟩ : ST.Rand)], 0 ≤ r.py ∧ r.py < 1)
    ∧ (runState ST.update
          (ST.setup 800 600 [⟨0.5, 0.5, 0.5, 0.5, 0.5, 0.5, 0.5⟩]) [0, 16]).meshes.map
            ST.STMesh.position
        = (ST.setup 800 600 [⟨0.5, 0.5, 0.5, 0.5, 0.5, 0.5, 0.5⟩]).meshes.map
            ST.STMesh.position :=
  ⟨by
      intro r hrm
      rw [List.mem_singleton] at hrm
      subst hrm
      refine ⟨?_, ?_⟩ <;> norm_num,
   (sort_transparency_positions_invariant 800 600 _
      (by
        intro r hrm
        rw [List.mem_singleton] at hrm
        subst hrm
        refine ⟨?_, ?_⟩ <;> norm_num)
      [0, 16]).2.1⟩

/-- C3: In the instancing sample, while the model has not loaded
(`mesh = none`) the frame callback skips the rotation update (the closure
variable stays `none`) and still issues its render; completion of
`loadModel` attaches the newly created mesh to the scene while registering
no animation frame and issuing no render of its own; and the first frame
callback after completion runs the rotation update (`rotation.y -= 5e-3`)
on the new mesh, renders once, and re-registers the loop exactly once —
the loop is not restarted. -/
theorem instancing_guard_and_load_handoff
    (s : Inst.State) (hm : s.mesh = none)
    (d : Inst.ModelData) (off rnd : List ℚ) (t t2 : ℚ) :
    ((Inst.update s t).1.mesh = none ∧ countRender (Inst.update s t).2 = 1)
    ∧ ((Inst.fetchEvent (.ok d) off rnd s).1.mesh
          = some ⟨Inst.mkGeometry d off rnd, 0, true⟩
        ∧ (Inst.fetchEvent (.ok d) off rnd s).2 = [])
    ∧ ((Inst.update (Inst.fetchEvent (.ok d) off rnd s).1 t2).1.mesh
          = some ⟨Inst.mkGeometry d off rnd, -0.005, true⟩
        ∧ countRender (Inst.update (Inst.fetchEvent (.ok d) off rnd s).1 t2).2 = 1
        ∧ countRaf (Inst.update (Inst.fetchEvent (.ok d) off rnd s).1 t2).2 = 1) := by
  refine ⟨⟨?_, rfl⟩, ⟨rfl, rfl⟩, ⟨?_, rfl, rfl⟩⟩
  · simp [Inst.update, hm]
  · norm_num [Inst.update, Inst.fetchEvent, Inst.loadComplete]

/-- Witness for C3: the setup state of the instancing sample has no mesh
yet, and a frame callback from it keeps the mesh absent while rendering. -/
theorem instancing_guard_and_load_handoff_witness :
    (Inst.setup 800 600).mesh = none
    ∧ ((Inst.update (Inst.setup 800 600) 16).1.mesh = none
        ∧ countRender (Inst.update (Inst.setup 800 600) 16).2 = 1) :=
  ⟨rfl, (instancing_guard_and_load_handoff (Inst.setup 800 600) rfl
      ⟨[], [], []⟩ [] [] 16 32).1⟩

/-- C7: Asset-load failures are unhandled, for every image load and model
fetch in every sample.  The failed instancing model fetch runs no sample
code and emits no diagnostic effect, and from then on the instanced mesh
is permanently absent while every frame still renders.  Each failed image
load — the instancing acorn texture, the point-lighting color, specular
and cloud maps, and the sort-transparency leaf texture — likewise runs no
sample code and emits nothing, and the corresponding texture image stays
permanently absent while every frame still renders. -/
theorem asset_load_failure_unhandled
    (s : Inst.State) (hm : s.mesh = none) (htx : s.texture = ⟨none⟩)
    (off rnd : List ℚ) (ts : List ℚ)
    (p : PL.State) (hc : p.colMap = ⟨none⟩) (hsp : p.specMap = ⟨none⟩)
    (hcl : p.cloudMap = ⟨none⟩) (j : Nat)
    (f : PL.OrbitState → CameraState → PL.OrbitState × CameraState)
    (ps : List ℚ)
    (q : ST.State) (hq : q.texture = ⟨none⟩) (qs : List ℚ) :
    Inst.fetchEvent .failed off rnd s = (s, [])
    ∧ (runState Inst.update (Inst.fetchEvent .failed off rnd s).1 ts).mesh = none
    ∧ totalRenders Inst.update (Inst.fetchEvent .failed off rnd s).1 ts = ts.length
    ∧ Inst.imgLoadEvent false j s = (s, [])
    ∧ (runState Inst.update (Inst.imgLoadEvent false j s).1 ts).texture = ⟨none⟩
    ∧ PL.colMapLoadEvent false j p = (p, [])
    ∧ (runState (PL.update f) (PL.colMapLoadEvent false j p).1 ps).colMap = ⟨none⟩
    ∧ PL.specMapLoadEvent false j p = (p, [])
    ∧ (runState (PL.update f) (PL.specMapLoadEvent false j p).1 ps).specMap = ⟨none⟩
    ∧ PL.cloudMapLoadEvent false j p = (p, [])
    ∧ (runState (PL.update f) (PL.cloudMapLoadEvent false j p).1 ps).cloudMap = ⟨none⟩
    ∧ totalRenders (PL.update f) (PL.colMapLoadEvent false j p).1 ps = ps.length
    ∧ ST.imgLoadEvent false j q = (q, [])
    ∧ (runState ST.update (ST.imgLoadEvent false j q).1 qs).texture = ⟨none⟩
    ∧ totalRenders ST.update (ST.imgLoadEvent false j q).1 qs = qs.length := by
  refine ⟨rfl, ?_, totalRenders_eq_length Inst.update (fun _ _ => rfl) ts _,
    rfl, ?_, rfl, ?_, rfl, ?_, rfl, ?_,
    totalRenders_eq_length (PL.update f) (fun _ _ => rfl) ps _,
    rfl, ?_, totalRenders_eq_length ST.update (fun _ _ => rfl) qs _⟩
  · exact runState_preserve Inst.update (fun s2 => s2.mesh = none)
      (fun s2 t hs => by simp [Inst.update, hs]) ts _ hm
  · exact runState_preserve Inst.update (fun s2 => s2.texture = ⟨none⟩)
      (fun s2 t hs => hs) ts _ htx
  · exact runState_preserve (PL.update f) (fun s2 => s2.colMap = ⟨none⟩)
      (fun s2 t hs => hs) ps _ hc
  · exact runState_preserve (PL.update f) (fun s2 => s2.specMap = ⟨none⟩)
      (fun s2 t hs => hs) ps _ hsp
  · exact runState_preserve (PL.update f) (fun s2 => s2.cloudMap = ⟨none⟩)
      (fun s2 t hs => hs) ps _ hcl
  · exact runState_preserve ST.update (fun s2 => s2.texture = ⟨none⟩)
      (fun s2 t hs => hs) qs _ hq

/-- Witness for C7: failed model fetch and failed image loads at the three
samples' setup states, each run for two frames. -/
theorem asset_load_failure_unhandled_witness :
    (Inst.setup 800 600).mesh = none
    ∧ (PL.setup 800 600).colMap = ⟨none⟩
    ∧ (ST.setup 800 600 []).texture = ⟨none⟩
    ∧ (runState Inst.update
        (Inst.fetchEvent .failed [] [] (Inst.setup 800 600)).1 [0, 16]).mesh = none
    ∧ (runState Inst.update
        (Inst.imgLoadEvent false 0 (Inst.setup 800 600)).1 [0, 16]).texture = ⟨none⟩ :=
  ⟨rfl, rfl, rfl,
   (asset_load_failure_unhandled (Inst.setup 800 600) rfl rfl [] [] [0, 16]
      (PL.setup 800 600) rfl rfl rfl 0 (fun o c => (o, c)) [0, 16]
      (ST.setup 800 600 []) rfl [0, 16]).2.1,
   (asset_load_failure_unhandled (Inst.setup 800 600) rfl rfl [] [] [0, 16]
      (PL.setup 800 600) rfl rfl rfl 0 (fun o c => (o, c)) [0, 16]
      (ST.setup 800 600 []) rfl [0, 16]).2.2.2.2.1⟩

end OglSpec
